import Mathlib

/-!
Verification of the EIRC API client (custom_components/eirc/api.py).

This file gives a shallow embedding of the client's session state, header
construction, authentication flow, two-factor verification, balance
computation, and the retry executor with exponential backoff, translated
from the Python source, and proves the specified properties about them.

Conventions of the embedding:
* Python instance fields `_session_cookie`, `_token_auth`, `_token_verify`
  become the `ClientState` structure; `None` becomes `Option.none`.
* Python truthiness of an optional string (`if self._token_auth:`) is the
  `truthy` predicate: `none` and the empty string are falsy.
* Raised exceptions become the `ApiError` inductive; `RuntimeError`
  messages keep the static part of the Python format string (the Python
  code appends the repr of dynamic data, which is dropped here).
* Outbound HTTP requests and backoff sleeps are recorded in an event
  trace, so that claims about which endpoints are called, with which
  headers, and which sleeps occur can be stated as facts about the trace.
* HTTP responses are supplied by oracles (`Nat → ...`) giving the server
  response to the n-th request of a kind.
* The retry loop of `_retry_api_call` does not terminate on all inputs
  (its 401 branch does not increment the retry counter), so it is
  modelled with explicit fuel; `StepResult.outOfFuel` means the loop was
  still running after the given number of iterations.
-/

/-- Retry ceiling, from MAX_RETRIES = 5 in api.py. -/
def MAX_RETRIES : Nat := 5

/-- Initial backoff delay in seconds, from INITIAL_BACKOFF = 4 in api.py. -/
def INITIAL_BACKOFF : Nat := 4

/-- Backoff multiplier, from BACKOFF_MULTIPLIER = 2 in api.py. -/
def BACKOFF_MULTIPLIER : Nat := 2

/-- The mutable token state of `EIRCApiClient`: the fields
`_session_cookie`, `_token_auth` and `_token_verify` set in `__init__`. -/
structure ClientState where
  session_cookie : Option String
  token_auth : Option String
  token_verify : Option String
deriving DecidableEq, Repr

/-- Construction of a client from saved values, mirroring
`EIRCApiClient.__init__(hass, username, password, session_cookie,
token_auth, token_verify)`: the three optional arguments are stored
unchanged (credentials and the aiohttp session are not part of the token
state, and no network call is made during construction). -/
def initClient (session_cookie token_auth token_verify : Option String) :
    ClientState :=
  { session_cookie := session_cookie
    token_auth := token_auth
    token_verify := token_verify }

/-- Python truthiness of an optional string: `None` and `""` are falsy. -/
def truthy : Option String → Bool
  | none => false
  | some s => !(s == "")

/-- The exceptions raised by api.py.  `clientResponseError` is aiohttp's
`ClientResponseError` carrying the HTTP status; `runtimeError` carries the
static part of the Python `RuntimeError` message; the remaining
constructors are the dedicated exception classes of api.py
(`MaxRetriesExceededError`, `MissingSessionCookieError`,
`TwoFactorAuthRequired`). -/
inductive ApiError where
  | clientResponseError (status : Nat) (message : String)
  | maxRetriesExceeded
  | missingSessionCookie (message : String)
  | twoFactorAuthRequired (transaction_id : String) (methods : List String)
  | runtimeError (message : String)
deriving DecidableEq, Repr

/-- The HTTP endpoints of api.py relevant to the claims: COOKIE_URL,
AUTH_URL, ACCOUNTS_URL and EMAIL_VERIFY_URL. -/
inductive Endpoint where
  | cookieEndpoint
  | loginEndpoint
  | accountsEndpoint
  | verifyEndpoint
deriving DecidableEq, Repr

/-- Observable events of a client operation: an outbound HTTP request with
its headers, a backoff sleep of `_retry_api_call` (in seconds), and an
invocation of `authenticate` from the 401 branch of `_retry_api_call`. -/
inductive Event where
  | request (endpoint : Endpoint) (headers : List (String × String))
  | sleep (seconds : Nat)
  | reauthenticate
deriving DecidableEq, Repr

/-- The header dictionary built by `_craft_headers` once the session
cookie check has passed, in insertion order: `Cookie` and `Content-Type`
always, then `Authorization: Bearer <token>` if `_token_auth` is truthy,
then `Auth-Verification: <token>` if `_token_verify` is truthy. -/
def headersOf (st : ClientState) : List (String × String) :=
  let h := [("Cookie", "session-cookie=" ++ st.session_cookie.getD ""),
            ("Content-Type", "application/json")]
  let h := if truthy st.token_auth then
             h ++ [("Authorization", "Bearer " ++ st.token_auth.getD "")]
           else h
  if truthy st.token_verify then
    h ++ [("Auth-Verification", st.token_verify.getD "")]
  else h

/-- `_craft_headers`: raises `MissingSessionCookieError("Session cookie is
missing")` when `_session_cookie` is falsy, otherwise returns the header
dictionary. -/
def craft_headers (st : ClientState) :
    Except ApiError (List (String × String)) :=
  if truthy st.session_cookie then .ok (headersOf st)
  else .error (.missingSessionCookie "Session cookie is missing")

/-- One entry of the balance response array consumed by
`get_account_balance`: the nested `charge.accrued` amount and the
optional `checked` flag (read as `item.get("checked", False)`). -/
structure BalanceEntry where
  accrued : Int
  checked : Option Bool
deriving DecidableEq, Repr

/-- The summation performed by `get_account_balance` on the parsed
response array: `sum(item["charge"]["accrued"] for item in data if
item.get("checked", False))` — a left fold starting from 0 over the
entries whose `checked` flag defaults to false when absent.  (The
retrieval of `data` itself goes through `retry_api_call` like every other
operation.) -/
def get_account_balance (data : List BalanceEntry) : Int :=
  (data.filter (fun item => item.checked.getD false)).foldl
    (fun acc item => acc + item.accrued) 0

/-- Result of a step of the client that may fail or, for loops modelled
with fuel, still be running when the fuel is exhausted. -/
inductive StepResult (α : Type) where
  | ok (v : α)
  | err (e : ApiError)
  | outOfFuel
deriving DecidableEq, Repr

/-- The local variables of `_retry_api_call` (`retries`, `backoff_time`),
the indices numbering the invocations of the wrapped call and of
`authenticate` (used to address the response oracles), and the client
token state. -/
@[ext]
structure LoopState where
  retries : Nat
  backoff : Nat
  callIdx : Nat
  authIdx : Nat
  client : ClientState
deriving DecidableEq, Repr

/-- Loop state at entry of `_retry_api_call`: `retries = 0`,
`backoff_time = INITIAL_BACKOFF`. -/
def initLoop (st : ClientState) : LoopState :=
  { retries := 0, backoff := INITIAL_BACKOFF, callIdx := 0, authIdx := 0,
    client := st }

/-- The `while retries < MAX_RETRIES` loop of `_retry_api_call`,
parameterised by the behaviour of the wrapped api_call (`call n st` is
the events, client state and outcome of its n-th invocation) and by the
behaviour of `authenticate` (`auth n st` likewise).  Success returns
immediately; a `ClientResponseError` with status 429, 500 or 503 sleeps
the current backoff, increments `retries` and multiplies the backoff by
`BACKOFF_MULTIPLIER`; a 424 is re-raised; a 401 sets `_token_auth` to
`None`, invokes `authenticate` and retries without touching `retries` or
the backoff; every other error is re-raised.  When the loop condition
fails the result is `MaxRetriesExceededError`.  The loop body does not
terminate on every input, so it takes explicit fuel counting loop
iterations. -/
def retry_api_call {α : Type}
    (call : Nat → ClientState → List Event × ClientState × Except ApiError α)
    (auth : Nat → ClientState → List Event × ClientState × StepResult Unit) :
    Nat → LoopState → List Event × StepResult α × LoopState
  | 0, s => ([], .outOfFuel, s)
  | fuel + 1, s =>
    if s.retries < MAX_RETRIES then
      let step := call s.callIdx s.client
      let s1 : LoopState := { s with client := step.2.1, callIdx := s.callIdx + 1 }
      match step.2.2 with
      | .ok v => (step.1, .ok v, s1)
      | .error e =>
        match e with
        | .clientResponseError status msg =>
          if status = 429 ∨ status = 500 ∨ status = 503 then
            let s2 : LoopState :=
              { s1 with retries := s.retries + 1,
                        backoff := s.backoff * BACKOFF_MULTIPLIER }
            let rest := retry_api_call call auth fuel s2
            (step.1 ++ Event.sleep s.backoff :: rest.1, rest.2.1, rest.2.2)
          else if status = 424 then
            (step.1, .err (.clientResponseError status msg), s1)
          else if status = 401 then
            let authStep := auth s.authIdx { s1.client with token_auth := none }
            let s2 : LoopState :=
              { s1 with client := authStep.2.1, authIdx := s.authIdx + 1 }
            match authStep.2.2 with
            | .ok _ =>
              let rest := retry_api_call call auth fuel s2
              (step.1 ++ Event.reauthenticate :: authStep.1 ++ rest.1,
               rest.2.1, rest.2.2)
            | .err e2 =>
              (step.1 ++ Event.reauthenticate :: authStep.1, .err e2, s2)
            | .outOfFuel =>
              (step.1 ++ Event.reauthenticate :: authStep.1, .outOfFuel, s2)
          else
            (step.1, .err (.clientResponseError status msg), s1)
        | _ => (step.1, .err e, s1)
    else
      ([], .err .maxRetriesExceeded, s)

/-- `_perform_get_accounts`: crafts the headers (a falsy session cookie
raises before any request is issued), issues a GET to the accounts
endpoint, and either returns the parsed body or raises
`ClientResponseError` via `raise_for_status` on a status of 400 or more.
`responses n` is the status and body the server returns to the n-th
request. -/
def perform_get_accounts {β : Type} (responses : Nat → Nat × β) (n : Nat)
    (st : ClientState) : List Event × ClientState × Except ApiError β :=
  match craft_headers st with
  | .error e => ([], st, .error e)
  | .ok h =>
    ([.request .accountsEndpoint h], st,
     if 400 ≤ (responses n).1 then
       .error (.clientResponseError (responses n).1 "")
     else .ok (responses n).2)

/-- The event trace produced by `k` consecutive transient-failure
iterations of the retry loop starting from backoff `b`: each iteration
issues the request events `evs` and then sleeps the current backoff,
which is multiplied by `BACKOFF_MULTIPLIER` every iteration. -/
def transientTrace (evs : List Event) : Nat → Nat → List Event
  | 0, _ => []
  | k + 1, b => evs ++ Event.sleep b :: transientTrace evs k (b * BACKOFF_MULTIPLIER)

/-- Lookup in a Python dict built from a list of key/value pairs by a
dict comprehension: a later binding of the same key overwrites an earlier
one, and `.get` returns `None` when the key is absent. -/
def dictGet (key : String) (l : List (String × String)) : Option String :=
  l.reverse.lookup key

/-- `_fetch_session_cookie`: issues an unauthenticated GET to the cookie
endpoint (COOKIE_URL), raises `MissingSessionCookieError("No cookies
found in response")` when the response carries no cookies at all, and
otherwise stores `cookies_dict.get("session-cookie")` — which is `None`
when cookies are present but none is named session-cookie — into
`_session_cookie` and returns it.  `cookies` is the name/value list of
the response cookies. -/
def fetch_session_cookie (cookies : List (String × String))
    (st : ClientState) :
    List Event × ClientState × Except ApiError (Option String) :=
  if cookies.isEmpty then
    ([Event.request .cookieEndpoint []], st,
     .error (.missingSessionCookie "No cookies found in response"))
  else
    ([Event.request .cookieEndpoint []],
     { st with session_cookie := dictGet "session-cookie" cookies },
     .ok (dictGet "session-cookie" cookies))

/-- The JSON body of a login-endpoint response together with its HTTP
status: `transactionId` and `types` are read on the 424 branch with
`data.get`, `auth` is read on the success branch with `data["auth"]`. -/
structure AuthResponse where
  status : Nat
  transactionId : Option String
  types : Option (List String)
  auth : Option String
deriving DecidableEq, Repr

/-- `_perform_authentication`: crafts the headers (a falsy session cookie
raises before any request is issued) and POSTs to the login endpoint
(AUTH_URL).  A 424 response is parsed as `{transactionId, types}`: a
falsy transaction id raises `RuntimeError("Auth returned 424 but no
transactionId in response")`; if `"EMAIL"` is not among the types it
raises `RuntimeError("2FA method EMAIL not available. Supported: ...")`
(the methods list is appended to the message); otherwise it raises
`TwoFactorAuthRequired(transaction_id, methods)`.  Any other status of
400 or more raises `ClientResponseError` via `raise_for_status`; a
success response stores `data["auth"]` into `_token_auth` (a body with no
auth key raises a KeyError, modelled as a RuntimeError). -/
def perform_authentication (resp : AuthResponse) (st : ClientState) :
    List Event × ClientState × Except ApiError Unit :=
  match craft_headers st with
  | .error e => ([], st, .error e)
  | .ok h =>
    if resp.status = 424 then
      if truthy resp.transactionId then
        if "EMAIL" ∈ resp.types.getD [] then
          ([Event.request .loginEndpoint h], st,
           .error (.twoFactorAuthRequired (resp.transactionId.getD "")
                     (resp.types.getD [])))
        else
          ([Event.request .loginEndpoint h], st,
           .error (.runtimeError
             ("2FA method EMAIL not available. Supported: " ++
              String.intercalate ", " (resp.types.getD []))))
      else
        ([Event.request .loginEndpoint h], st,
         .error (.runtimeError "Auth returned 424 but no transactionId in response"))
    else if 400 ≤ resp.status then
      ([Event.request .loginEndpoint h], st,
       .error (.clientResponseError resp.status ""))
    else
      match resp.auth with
      | none => ([Event.request .loginEndpoint h], st,
                 .error (.runtimeError "KeyError: auth"))
      | some a => ([Event.request .loginEndpoint h],
                   { st with token_auth := some a }, .ok ())

/-- The JSON body of a verification-endpoint response together with its
HTTP status: `auth` and `verified` are read with `data.get`. -/
structure VerifyResponse where
  status : Nat
  auth : Option String
  verified : Option String
deriving DecidableEq, Repr

/-- `twofa_authentication`: crafts the headers (a falsy session cookie
raises before any request is issued), POSTs the code to the verification
endpoint (EMAIL_VERIFY_URL), raises `ClientResponseError` via
`raise_for_status` on a status of 400 or more, then reads `auth` and
`verified` from the body: a falsy `auth` raises `RuntimeError("No
authentication token found in response")` before any field is written, a
falsy `verified` raises `RuntimeError("No verification token found in
response")` before any field is written, and only when both are truthy
are `_token_auth` and `_token_verify` both stored; the pair is
returned. -/
def twofa_authentication (resp : VerifyResponse) (st : ClientState) :
    List Event × ClientState × Except ApiError (String × String) :=
  match craft_headers st with
  | .error e => ([], st, .error e)
  | .ok h =>
    if 400 ≤ resp.status then
      ([Event.request .verifyEndpoint h], st,
       .error (.clientResponseError resp.status ""))
    else if truthy resp.auth then
      if truthy resp.verified then
        ([Event.request .verifyEndpoint h],
         { st with token_auth := resp.auth, token_verify := resp.verified },
         .ok (resp.auth.getD "", resp.verified.getD ""))
      else
        ([Event.request .verifyEndpoint h], st,
         .error (.runtimeError "No verification token found in response"))
    else
      ([Event.request .verifyEndpoint h], st,
       .error (.runtimeError "No authentication token found in response"))

/-- `authenticate`: a no-op when `_token_auth`, `_token_verify` and
`_session_cookie` are all truthy; otherwise it fetches the session cookie
if `_session_cookie` is falsy (propagating a fetch failure), then runs
`_perform_authentication` under `_retry_api_call`.  A
`TwoFactorAuthRequired` escaping the loop is stored and re-raised, so
every loop error propagates unchanged.  `cookieResp` is the cookie
name/value list the cookie endpoint returns; `loginResps n` is the
response to the n-th login request.  The 401 branch of the inner retry
loop calls `authenticate` recursively; the recursion is fuelled. -/
def authenticate (cookieResp : List (String × String))
    (loginResps : Nat → AuthResponse) :
    Nat → ClientState → List Event × ClientState × StepResult Unit
  | 0, st => ([], st, .outOfFuel)
  | fuel + 1, st =>
    if truthy st.token_auth && truthy st.token_verify &&
        truthy st.session_cookie then
      ([], st, .ok ())
    else
      let fetch :=
        if truthy st.session_cookie then ([], st, Except.ok st.session_cookie)
        else fetch_session_cookie cookieResp st
      match fetch.2.2 with
      | .error e => (fetch.1, fetch.2.1, .err e)
      | .ok _ =>
        let loop := retry_api_call
          (fun n st2 => perform_authentication (loginResps n) st2)
          (fun _ st2 => authenticate cookieResp loginResps fuel st2)
          (fuel + 1) (initLoop fetch.2.1)
        (fetch.1 ++ loop.1, loop.2.2.client, loop.2.1)

/-- Modelled from the spec: the proxy-resolving parts of `__init__` and
`_get_session` are not in the source tree (the config flow and the
coordinator construct the client with a `proxy=` argument, but the client
file present under src/ has no proxy parameter), so transport resolution
is modelled from spec section 4.3 "Transport Configuration".  A transport
plan is resolved once at construction: no proxy means a direct
connection; an http/https proxy URL is passed per request; a SOCKS proxy
URL gets a dedicated connector built once. -/
inductive TransportPlan where
  | direct
  | perRequestProxy (url : String)
  | socksConnector (url : String)
deriving DecidableEq, Repr

/-- Modelled from the spec: the construction-time failure of spec section
4.3 — if the SOCKS capability is unavailable in the runtime, construction
must fail loudly rather than silently fall back to a direct
connection. -/
inductive TransportError where
  | socksSupportUnavailable
deriving DecidableEq, Repr

/-- The scheme of a proxy URL: the part before the first colon. -/
def urlScheme (url : String) : String :=
  String.mk (url.data.takeWhile (fun ch => ch ≠ ':'))

/-- Modelled from the spec: transport resolution performed once at client
construction (spec section 4.3).  No proxy configured resolves to a
direct connection; scheme http/https resolves to passing the proxy URL
per request; scheme socks4/socks5/socks5h resolves to a dedicated SOCKS
connector when the SOCKS capability is available in the runtime and fails
loudly with `socksSupportUnavailable` when it is not; any other scheme is
passed through per request like http. -/
def resolveTransport (proxy : Option String) (socksAvailable : Bool) :
    Except TransportError TransportPlan :=
  match proxy with
  | none => .ok .direct
  | some url =>
    if urlScheme url = "socks4" ∨ urlScheme url = "socks5" ∨
        urlScheme url = "socks5h" then
      if socksAvailable then .ok (.socksConnector url)
      else .error .socksSupportUnavailable
    else .ok (.perRequestProxy url)

/-- A client state holding only a saved session cookie. -/
def cookieOnlyClient : ClientState :=
  { session_cookie := some "c", token_auth := none, token_verify := none }

/-- A client state holding a saved cookie/auth/verify triple. -/
def savedClient : ClientState :=
  { session_cookie := some "c", token_auth := some "a", token_verify := some "v" }

/-- The client state left behind by `alwaysOkReauth` when re-login runs
from the saved client: cookie kept, auth token replaced by a fresh one. -/
def refreshedClient : ClientState :=
  { session_cookie := some "c", token_auth := some "t", token_verify := some "v" }

/-- A client state with nothing saved yet. -/
def newClient : ClientState :=
  { session_cookie := none, token_auth := none, token_verify := none }

/-- A re-authentication behaviour that always succeeds immediately,
leaving a fresh auth token and a session cookie behind (the behaviour of
`authenticate` against a server whose login endpoint always accepts). -/
def alwaysOkReauth : Nat → ClientState → List Event × ClientState × StepResult Unit :=
  fun _ st =>
    ([], { st with session_cookie := some "c", token_auth := some "t" }, .ok ())

/-- A re-authentication behaviour that is never exercised (used where the
wrapped call never returns 401). -/
def noReauth : Nat → ClientState → List Event × ClientState × StepResult Unit :=
  fun _ st => ([], st, .ok ())

/-! ## Helper lemmas -/

theorem foldl_add_eq_sum (l : List Int) (a : Int) :
    l.foldl (fun acc x => acc + x) a = a + l.sum := by
  induction l generalizing a with
  | nil => simp
  | cons x xs ih => simp [List.foldl_cons, ih, List.sum_cons]; ring

theorem retry_success_step {α : Type}
    (call : Nat → ClientState → List Event × ClientState × Except ApiError α)
    (auth : Nat → ClientState → List Event × ClientState × StepResult Unit)
    (fuel : Nat) (s : LoopState) (hr : s.retries < MAX_RETRIES)
    (evs : List Event) (st' : ClientState) (v : α)
    (hcall : call s.callIdx s.client = (evs, st', .ok v)) :
    retry_api_call call auth (fuel + 1) s =
      (evs, .ok v, { s with client := st', callIdx := s.callIdx + 1 }) := by
  simp [retry_api_call, hr, hcall]

theorem retry_401_ok_step {α : Type}
    (call : Nat → ClientState → List Event × ClientState × Except ApiError α)
    (auth : Nat → ClientState → List Event × ClientState × StepResult Unit)
    (fuel : Nat) (s : LoopState) (hr : s.retries < MAX_RETRIES)
    (evs : List Event) (st' : ClientState) (msg : String)
    (hcall : call s.callIdx s.client =
      (evs, st', .error (.clientResponseError 401 msg)))
    (evsA : List Event) (stA : ClientState)
    (hauth : auth s.authIdx { st' with token_auth := none } =
      (evsA, stA, .ok ())) :
    retry_api_call call auth (fuel + 1) s =
      (evs ++ Event.reauthenticate :: evsA ++
         (retry_api_call call auth fuel
            { s with client := stA, callIdx := s.callIdx + 1,
                     authIdx := s.authIdx + 1 }).1,
       (retry_api_call call auth fuel
          { s with client := stA, callIdx := s.callIdx + 1,
                   authIdx := s.authIdx + 1 }).2.1,
       (retry_api_call call auth fuel
          { s with client := stA, callIdx := s.callIdx + 1,
                   authIdx := s.authIdx + 1 }).2.2) := by
  simp [retry_api_call, hr, hcall, hauth]

theorem retry_raise_step {α : Type}
    (call : Nat → ClientState → List Event × ClientState × Except ApiError α)
    (auth : Nat → ClientState → List Event × ClientState × StepResult Unit)
    (fuel : Nat) (s : LoopState) (hr : s.retries < MAX_RETRIES)
    (evs : List Event) (st' : ClientState) (e : ApiError)
    (hcall : call s.callIdx s.client = (evs, st', .error e))
    (he : ∀ status msg, e ≠ .clientResponseError status msg) :
    retry_api_call call auth (fuel + 1) s =
      (evs, .err e, { s with client := st', callIdx := s.callIdx + 1 }) := by
  cases e with
  | clientResponseError status msg => exact absurd rfl (he status msg)
  | _ => simp [retry_api_call, hr, hcall]

theorem retry_all_transient {α : Type}
    (call : Nat → ClientState → List Event × ClientState × Except ApiError α)
    (auth : Nat → ClientState → List Event × ClientState × StepResult Unit)
    (c : ClientState) (evs : List Event) (f : Nat → Nat)
    (hcall : ∀ n, call n c = (evs, c, .error (.clientResponseError (f n) "")))
    (hf : ∀ n, f n = 429 ∨ f n = 500 ∨ f n = 503) (k : Nat) :
    ∀ (fuel : Nat) (s : LoopState), s.client = c → s.retries + k = MAX_RETRIES →
      k < fuel →
      retry_api_call call auth fuel s =
        (transientTrace evs k s.backoff, .err .maxRetriesExceeded,
         { s with retries := MAX_RETRIES, callIdx := s.callIdx + k,
                  backoff := s.backoff * BACKOFF_MULTIPLIER ^ k }) := by
  induction k with
  | zero =>
    intro fuel s hclient hk hfuel
    obtain ⟨m, rfl⟩ : ∃ m, fuel = m + 1 := ⟨fuel - 1, by omega⟩
    have hr : ¬ s.retries < MAX_RETRIES := by omega
    simp only [retry_api_call, hr, if_false, transientTrace, Prod.mk.injEq]
    refine ⟨trivial, trivial, ?_⟩
    ext <;> simp
    omega
  | succ k ih =>
    intro fuel s hclient hk hfuel
    obtain ⟨m, rfl⟩ : ∃ m, fuel = m + 1 := ⟨fuel - 1, by omega⟩
    have hr : s.retries < MAX_RETRIES := by omega
    have hst : f s.callIdx = 429 ∨ f s.callIdx = 500 ∨ f s.callIdx = 503 :=
      hf s.callIdx
    simp only [retry_api_call, hr, if_true, hclient, hcall s.callIdx, hst,
      if_pos]
    rw [ih m { s with client := c, callIdx := s.callIdx + 1,
                      retries := s.retries + 1,
                      backoff := s.backoff * BACKOFF_MULTIPLIER }
          rfl (by simpa using by omega) (by omega)]
    simp only [Prod.mk.injEq]
    refine ⟨?_, trivial, ?_⟩
    · simp [transientTrace]
    · ext <;> simp [pow_succ] <;> ring_nf

theorem retry_first_events {α : Type}
    (call : Nat → ClientState → List Event × ClientState × Except ApiError α)
    (auth : Nat → ClientState → List Event × ClientState × StepResult Unit)
    (fuel : Nat) (s : LoopState) (hr : s.retries < MAX_RETRIES) :
    ∃ t, (retry_api_call call auth (fuel + 1) s).1 =
      (call s.callIdx s.client).1 ++ t := by
  rcases hstep : call s.callIdx s.client with ⟨evs, st', r⟩
  rcases r with e | v
  · cases e with
    | clientResponseError status msg =>
      by_cases h1 : status = 429 ∨ status = 500 ∨ status = 503
      · simp [retry_api_call, hr, hstep, h1]
      · by_cases h2 : status = 424
        · exact ⟨[], by simp [retry_api_call, hr, hstep, h1, h2]⟩
        · by_cases h3 : status = 401
          · rcases hA : auth s.authIdx { st' with token_auth := none } with
              ⟨evsA, stA, rA⟩
            cases rA with
            | ok _ => simp [retry_api_call, hr, hstep, h1, h2, h3, hA]
            | err e2 => simp [retry_api_call, hr, hstep, h1, h2, h3, hA]
            | outOfFuel => simp [retry_api_call, hr, hstep, h1, h2, h3, hA]
          · exact ⟨[], by simp [retry_api_call, hr, hstep, h1, h2, h3]⟩
    | maxRetriesExceeded => exact ⟨[], by simp [retry_api_call, hr, hstep]⟩
    | missingSessionCookie m => exact ⟨[], by simp [retry_api_call, hr, hstep]⟩
    | twoFactorAuthRequired t ms =>
      exact ⟨[], by simp [retry_api_call, hr, hstep]⟩
    | runtimeError m => exact ⟨[], by simp [retry_api_call, hr, hstep]⟩
  · exact ⟨[], by simp [retry_api_call, hr, hstep]⟩

/-! ## Claims -/

/-- C1 counterexample: contrary to the claim, a 400 response is not
treated as transient.  With every response to the accounts operation
being 400, `_retry_api_call` re-raises the `ClientResponseError` with
status 400 on the very first attempt — the trace holds exactly one
request and no backoff sleep — instead of retrying and raising
`MaxRetriesExceeded`. -/
theorem c1_400_not_retried :
    retry_api_call (perform_get_accounts (fun _ => (400, Unit.unit)))
        noReauth 10 (initLoop cookieOnlyClient) =
      ([Event.request .accountsEndpoint
          [("Cookie", "session-cookie=c"), ("Content-Type", "application/json")]],
       .err (.clientResponseError 400 ""),
       { retries := 0, backoff := 4, callIdx := 1, authIdx := 0,
         client := cookieOnlyClient }) := by
  decide

/-- C1 (amended): for every operation whose HTTP response has status in
the set {429, 500, 503} on every attempt, `_retry_api_call` treats the
response as transient: it sleeps the current backoff delay and multiplies
the delay by the fixed factor (initial delay 4, multiplier 2) after every
such retry, retrying up to the fixed ceiling of 5 attempts, and raises
`MaxRetriesExceeded` when no attempt succeeds — the trace is five
requests with sleeps of 4, 8, 16, 32 and 64 seconds.  A 400 response is
not in the transient set: it is re-raised immediately, never retried. -/
theorem c1_transient_statuses_retry_until_ceiling
    (f : Nat → Nat) (hf : ∀ n, f n = 429 ∨ f n = 500 ∨ f n = 503)
    (auth : Nat → ClientState → List Event × ClientState × StepResult Unit)
    (st : ClientState) (hc : truthy st.session_cookie = true)
    (fuel : Nat) (hfuel : MAX_RETRIES < fuel) :
    retry_api_call (perform_get_accounts (fun n => (f n, Unit.unit))) auth
        fuel (initLoop st) =
      ([Event.request .accountsEndpoint (headersOf st), Event.sleep 4,
        Event.request .accountsEndpoint (headersOf st), Event.sleep 8,
        Event.request .accountsEndpoint (headersOf st), Event.sleep 16,
        Event.request .accountsEndpoint (headersOf st), Event.sleep 32,
        Event.request .accountsEndpoint (headersOf st), Event.sleep 64],
       .err .maxRetriesExceeded,
       { retries := 5, backoff := 128, callIdx := 5, authIdx := 0,
         client := st }) := by
  have hcall : ∀ n, perform_get_accounts (fun n => (f n, Unit.unit)) n st =
      ([Event.request .accountsEndpoint (headersOf st)], st,
       .error (.clientResponseError (f n) "")) := by
    intro n
    rcases hf n with h | h | h <;>
      simp [perform_get_accounts, craft_headers, hc, h]
  rw [retry_all_transient _ auth st _ f hcall hf MAX_RETRIES fuel
        (initLoop st) rfl (by simp [initLoop]) hfuel]
  simp only [Prod.mk.injEq]
  refine ⟨?_, trivial, ?_⟩
  · norm_num [transientTrace, MAX_RETRIES, BACKOFF_MULTIPLIER, initLoop,
      INITIAL_BACKOFF]
  · ext <;> simp [initLoop, MAX_RETRIES, BACKOFF_MULTIPLIER, INITIAL_BACKOFF]

/-- Witness for C1: the amended theorem applied to the constant 500
response stream, a client holding a session cookie, and fuel 6. -/
theorem c1_transient_statuses_retry_until_ceiling_witness :
    truthy cookieOnlyClient.session_cookie = true ∧
    MAX_RETRIES < 6 ∧
    retry_api_call (perform_get_accounts (fun n => ((fun _ => 500) n, Unit.unit)))
        noReauth 6 (initLoop cookieOnlyClient) =
      ([Event.request .accountsEndpoint (headersOf cookieOnlyClient),
        Event.sleep 4,
        Event.request .accountsEndpoint (headersOf cookieOnlyClient),
        Event.sleep 8,
        Event.request .accountsEndpoint (headersOf cookieOnlyClient),
        Event.sleep 16,
        Event.request .accountsEndpoint (headersOf cookieOnlyClient),
        Event.sleep 32,
        Event.request .accountsEndpoint (headersOf cookieOnlyClient),
        Event.sleep 64],
       .err .maxRetriesExceeded,
       { retries := 5, backoff := 128, callIdx := 5, authIdx := 0,
         client := cookieOnlyClient }) :=
  ⟨by decide, by decide,
   c1_transient_statuses_retry_until_ceiling (fun _ => 500)
     (fun _ => Or.inr (Or.inl rfl)) noReauth cookieOnlyClient (by decide)
     6 (by decide)⟩

/-- C2 counterexample: contrary to the claim, a 401-triggered
re-authentication retry does not consume a retry attempt, and the
executor does not terminate within the 5-attempt ceiling when every
response is 401.  With every accounts response being 401 and
re-authentication succeeding every time, after 50 loop iterations the
loop is still running (`outOfFuel`), the `retries` counter is still 0,
50 requests have been issued and no backoff sleep has occurred. -/
theorem c2_all_401_loops_past_ceiling :
    (retry_api_call (perform_get_accounts (fun _ => (401, Unit.unit)))
        alwaysOkReauth 50 (initLoop savedClient)).2.1 = .outOfFuel ∧
    (retry_api_call (perform_get_accounts (fun _ => (401, Unit.unit)))
        alwaysOkReauth 50 (initLoop savedClient)).2.2.retries = 0 ∧
    ((retry_api_call (perform_get_accounts (fun _ => (401, Unit.unit)))
        alwaysOkReauth 50 (initLoop savedClient)).1.countP
      (fun e => match e with
        | Event.request _ _ => true
        | _ => false)) = 50 ∧
    ((retry_api_call (perform_get_accounts (fun _ => (401, Unit.unit)))
        alwaysOkReauth 50 (initLoop savedClient)).1.countP
      (fun e => match e with
        | Event.sleep _ => true
        | _ => false)) = 0 := by
  decide

/-- C2 (amended): a 401-triggered re-authentication retry does not
consume a retry attempt: for a sequence in which every response is 401
and re-authentication succeeds each time (leaving a session cookie in
place), the retry executor never terminates — for every amount of fuel
the loop is still running and the `retries` counter is unchanged.  The
5-attempt ceiling bounds only the transient-status (429/500/503)
retries. -/
theorem c2_all_401_never_terminates
    (auth : Nat → ClientState → List Event × ClientState × StepResult Unit)
    (hauth : ∀ n st, ∃ evsA stA, auth n st = (evsA, stA, .ok ()) ∧
      truthy stA.session_cookie = true) :
    ∀ (fuel : Nat) (s : LoopState), s.retries < MAX_RETRIES →
      truthy s.client.session_cookie = true →
      (retry_api_call (perform_get_accounts (fun _ => (401, Unit.unit))) auth
          fuel s).2.1 = .outOfFuel ∧
      (retry_api_call (perform_get_accounts (fun _ => (401, Unit.unit))) auth
          fuel s).2.2.retries = s.retries := by
  intro fuel
  induction fuel with
  | zero => intro s _ _; exact ⟨rfl, rfl⟩
  | succ m ih =>
    intro s hr hc
    obtain ⟨evsA, stA, hstep, hcA⟩ :=
      hauth s.authIdx { s.client with token_auth := none }
    have hcall : perform_get_accounts (fun _ => (401, Unit.unit)) s.callIdx
        s.client =
        ([Event.request .accountsEndpoint (headersOf s.client)], s.client,
         .error (.clientResponseError 401 "")) := by
      simp [perform_get_accounts, craft_headers, hc]
    rw [retry_401_ok_step _ auth m s hr _ _ _ hcall evsA stA hstep]
    exact ⟨(ih { s with client := stA, callIdx := s.callIdx + 1,
                        authIdx := s.authIdx + 1 } hr hcA).1,
           (ih { s with client := stA, callIdx := s.callIdx + 1,
                        authIdx := s.authIdx + 1 } hr hcA).2⟩

/-- Witness for C2: the amended theorem applied to the always-successful
re-authentication behaviour, fuel 7, and the initial loop state of a
client holding a full token triple. -/
theorem c2_all_401_never_terminates_witness :
    (initLoop savedClient).retries < MAX_RETRIES ∧
    truthy (initLoop savedClient).client.session_cookie = true ∧
    ((retry_api_call (perform_get_accounts (fun _ => (401, Unit.unit)))
        alwaysOkReauth 7 (initLoop savedClient)).2.1 = .outOfFuel ∧
     (retry_api_call (perform_get_accounts (fun _ => (401, Unit.unit)))
        alwaysOkReauth 7 (initLoop savedClient)).2.2.retries =
       (initLoop savedClient).retries) :=
  ⟨by decide, by decide,
   c2_all_401_never_terminates alwaysOkReauth
     (fun n st => ⟨[], { st with session_cookie := some "c",
                                 token_auth := some "t" }, rfl, rfl⟩)
     7 (initLoop savedClient) (by decide) (by decide)⟩

/-- C3, confirmed: when a call on a non-login endpoint returns 401 and
the retry succeeds, the executor hands `authenticate` exactly the state
with only `_token_auth` cleared (session cookie and verify token
retained), invokes it exactly once before the retry, and the 401 does not
consume a backoff-delay step: the trace holds no outer sleep and the
final backoff is still `INITIAL_BACKOFF` unmultiplied, while the retry
returns the successful value. -/
theorem c3_401_reauthenticates_once_without_backoff
    (auth : Nat → ClientState → List Event × ClientState × StepResult Unit)
    (c c2 : ClientState) (evsA : List Event) (v : Nat)
    (responses : Nat → Nat × Nat)
    (h0 : responses 0 = (401, 0)) (h1 : responses 1 = (200, v))
    (hauth : auth 0 { c with token_auth := none } = (evsA, c2, .ok ()))
    (hc : truthy c.session_cookie = true)
    (hc2 : truthy c2.session_cookie = true)
    (fuel : Nat) :
    retry_api_call (perform_get_accounts responses) auth (fuel + 2)
        (initLoop c) =
      (Event.request .accountsEndpoint (headersOf c) ::
         Event.reauthenticate :: (evsA ++
           [Event.request .accountsEndpoint (headersOf c2)]),
       .ok v,
       { retries := 0, backoff := INITIAL_BACKOFF, callIdx := 2, authIdx := 1,
         client := c2 }) := by
  have hcall0 : perform_get_accounts responses 0 c =
      ([Event.request .accountsEndpoint (headersOf c)], c,
       .error (.clientResponseError 401 "")) := by
    simp [perform_get_accounts, craft_headers, hc, h0]
  have hcall1 : perform_get_accounts responses 1 c2 =
      ([Event.request .accountsEndpoint (headersOf c2)], c2, .ok v) := by
    simp [perform_get_accounts, craft_headers, hc2, h1]
  show retry_api_call (perform_get_accounts responses) auth (fuel + 1 + 1)
      ⟨0, INITIAL_BACKOFF, 0, 0, c⟩ = _
  rw [retry_401_ok_step _ auth (fuel + 1) ⟨0, INITIAL_BACKOFF, 0, 0, c⟩
        (show (0:Nat) < MAX_RETRIES by decide) _ _ _ hcall0 evsA c2 hauth,
      retry_success_step _ auth fuel ⟨0, INITIAL_BACKOFF, 1, 1, c2⟩
        (show (0:Nat) < MAX_RETRIES by decide) _ _ _ hcall1]
  simp

/-- Witness for C3: the theorem applied to a 401-then-200 response
stream, a concrete re-authentication behaviour storing a fresh token, the
saved client state, and fuel 3. -/
theorem c3_401_reauthenticates_once_without_backoff_witness :
    (fun n => if n = 0 then ((401 : Nat), (0 : Nat)) else (200, 42)) 0 = (401, 0) ∧
    (fun n => if n = 0 then ((401 : Nat), (0 : Nat)) else (200, 42)) 1 = (200, 42) ∧
    alwaysOkReauth 0 { savedClient with token_auth := none } =
      ([], refreshedClient, .ok ()) ∧
    retry_api_call
        (perform_get_accounts
          (fun n => if n = 0 then ((401 : Nat), (0 : Nat)) else (200, 42)))
        alwaysOkReauth 3 (initLoop savedClient) =
      (Event.request .accountsEndpoint (headersOf savedClient) ::
         Event.reauthenticate :: ([] ++
           [Event.request .accountsEndpoint (headersOf refreshedClient)]),
       .ok 42,
       { retries := 0, backoff := INITIAL_BACKOFF, callIdx := 2, authIdx := 1,
         client := refreshedClient }) :=
  ⟨by decide, by decide, by decide,
   c3_401_reauthenticates_once_without_backoff alwaysOkReauth savedClient
     refreshedClient
     [] 42 (fun n => if n = 0 then ((401 : Nat), (0 : Nat)) else (200, 42))
     (by decide) (by decide) (by decide) (by decide) (by decide) 1⟩

/-- C4, confirmed: on a 424 login response with body `{transactionId,
types}`, if EMAIL is not among the types, login fails with the
unsupported-two-factor-method error (the `RuntimeError("2FA method EMAIL
not available. Supported: ...")` of the source), and that error is fatal
and non-retryable — the retry executor re-raises it on the first attempt;
otherwise login raises `TwoFactorAuthRequired` carrying exactly the
transaction id and the methods list from the response. -/
theorem c4_424_two_factor_branching
    (st : ClientState) (hc : truthy st.session_cookie = true)
    (t : String) (ht : t ≠ "") (ms : List String) (a : Option String) :
    ("EMAIL" ∉ ms →
      perform_authentication ⟨424, some t, some ms, a⟩ st =
        ([Event.request .loginEndpoint (headersOf st)], st,
         .error (.runtimeError
           ("2FA method EMAIL not available. Supported: " ++
            String.intercalate ", " ms)))) ∧
    ("EMAIL" ∈ ms →
      perform_authentication ⟨424, some t, some ms, a⟩ st =
        ([Event.request .loginEndpoint (headersOf st)], st,
         .error (.twoFactorAuthRequired t ms))) ∧
    ("EMAIL" ∉ ms →
      ∀ (auth : Nat → ClientState → List Event × ClientState × StepResult Unit)
        (fuel : Nat),
        retry_api_call
            (fun _ st2 => perform_authentication ⟨424, some t, some ms, a⟩ st2)
            auth (fuel + 1) (initLoop st) =
          ([Event.request .loginEndpoint (headersOf st)],
           .err (.runtimeError
             ("2FA method EMAIL not available. Supported: " ++
              String.intercalate ", " ms)),
           { retries := 0, backoff := INITIAL_BACKOFF, callIdx := 1,
             authIdx := 0, client := st })) := by
  have htt : truthy (some t) = true := by simp [truthy, ht]
  have hbranch : "EMAIL" ∉ ms →
      perform_authentication ⟨424, some t, some ms, a⟩ st =
        ([Event.request .loginEndpoint (headersOf st)], st,
         .error (.runtimeError
           ("2FA method EMAIL not available. Supported: " ++
            String.intercalate ", " ms))) := by
    intro hmem
    simp [perform_authentication, craft_headers, hc, htt, hmem]
  refine ⟨hbranch, ?_, ?_⟩
  · intro hmem
    simp [perform_authentication, craft_headers, hc, htt, hmem]
  · intro hmem auth fuel
    have hcall : (fun _ st2 =>
        perform_authentication ⟨424, some t, some ms, a⟩ st2)
          (initLoop st).callIdx (initLoop st).client =
        ([Event.request .loginEndpoint (headersOf st)], st,
         .error (.runtimeError
           ("2FA method EMAIL not available. Supported: " ++
            String.intercalate ", " ms))) := hbranch hmem
    rw [retry_raise_step _ auth fuel (initLoop st)
          (show (0:Nat) < MAX_RETRIES by decide) _ _ _ hcall
          (by intro status msg h; cases h)]
    rfl

/-- Witness for C4: the theorem applied to the saved client, transaction
id "tx", methods list ["SMS"] (for the unsupported branch, also run
through the retry executor) and ["SMS", "EMAIL"] is covered by a second
application at a different methods list inside the same conjunction. -/
theorem c4_424_two_factor_branching_witness :
    truthy savedClient.session_cookie = true ∧
    ("tx" : String) ≠ "" ∧
    (("EMAIL" ∉ (["SMS"] : List String) →
      perform_authentication ⟨424, some "tx", some ["SMS"], none⟩ savedClient =
        ([Event.request .loginEndpoint (headersOf savedClient)], savedClient,
         .error (.runtimeError
           ("2FA method EMAIL not available. Supported: " ++
            String.intercalate ", " ["SMS"])))) ∧
     ("EMAIL" ∈ (["SMS"] : List String) →
      perform_authentication ⟨424, some "tx", some ["SMS"], none⟩ savedClient =
        ([Event.request .loginEndpoint (headersOf savedClient)], savedClient,
         .error (.twoFactorAuthRequired "tx" ["SMS"]))) ∧
     ("EMAIL" ∉ (["SMS"] : List String) →
      ∀ (auth : Nat → ClientState → List Event × ClientState × StepResult Unit)
        (fuel : Nat),
        retry_api_call
            (fun _ st2 =>
              perform_authentication ⟨424, some "tx", some ["SMS"], none⟩ st2)
            auth (fuel + 1) (initLoop savedClient) =
          ([Event.request .loginEndpoint (headersOf savedClient)],
           .err (.runtimeError
             ("2FA method EMAIL not available. Supported: " ++
              String.intercalate ", " ["SMS"])),
           { retries := 0, backoff := INITIAL_BACKOFF, callIdx := 1,
             authIdx := 0, client := savedClient }))) :=
  ⟨by decide, by decide,
   c4_424_two_factor_branching savedClient (by decide) "tx" (by decide)
     ["SMS"] none⟩

/-- C5, confirmed: `twofa_authentication` with a response body missing
the auth token or the verify token fails with the verification-failed
error (a `RuntimeError` in the source) and leaves both stored tokens
untouched; only when both tokens are present (truthy) in the response
does it store both. -/
theorem c5_two_factor_tokens_all_or_nothing
    (st : ClientState) (hc : truthy st.session_cookie = true)
    (resp : VerifyResponse) (hstatus : resp.status < 400) :
    ((resp.auth = none ∨ resp.verified = none) →
      (twofa_authentication resp st).2.1 = st ∧
      ((twofa_authentication resp st).2.2 =
         .error (.runtimeError "No authentication token found in response") ∨
       (twofa_authentication resp st).2.2 =
         .error (.runtimeError "No verification token found in response"))) ∧
    (truthy resp.auth = true → truthy resp.verified = true →
      twofa_authentication resp st =
        ([Event.request .verifyEndpoint (headersOf st)],
         { st with token_auth := resp.auth, token_verify := resp.verified },
         .ok (resp.auth.getD "", resp.verified.getD ""))) := by
  have hlt : ¬ 400 ≤ resp.status := by omega
  constructor
  · rintro (h | h)
    · have hA : truthy resp.auth = false := by simp [h, truthy]
      exact ⟨by simp [twofa_authentication, craft_headers, hc, hlt, hA],
             Or.inl (by simp [twofa_authentication, craft_headers, hc, hlt, hA])⟩
    · have hV : truthy resp.verified = false := by simp [h, truthy]
      by_cases hA : truthy resp.auth = true
      · exact ⟨by simp [twofa_authentication, craft_headers, hc, hlt, hA, hV],
               Or.inr
                 (by simp [twofa_authentication, craft_headers, hc, hlt, hA, hV])⟩
      · rw [Bool.not_eq_true] at hA
        exact ⟨by simp [twofa_authentication, craft_headers, hc, hlt, hA],
               Or.inl
                 (by simp [twofa_authentication, craft_headers, hc, hlt, hA])⟩
  · intro hA hV
    simp [twofa_authentication, craft_headers, hc, hlt, hA, hV]

/-- Witness for C5: the theorem applied to the cookie-only client and a
200 response missing the verify token, then (inside the same conjunction)
to the all-or-nothing success condition. -/
theorem c5_two_factor_tokens_all_or_nothing_witness :
    truthy cookieOnlyClient.session_cookie = true ∧
    (⟨200, some "at", none⟩ : VerifyResponse).status < 400 ∧
    (((⟨200, some "at", none⟩ : VerifyResponse).auth = none ∨
      (⟨200, some "at", none⟩ : VerifyResponse).verified = none) →
      (twofa_authentication ⟨200, some "at", none⟩ cookieOnlyClient).2.1 =
        cookieOnlyClient ∧
      ((twofa_authentication ⟨200, some "at", none⟩ cookieOnlyClient).2.2 =
         .error (.runtimeError "No authentication token found in response") ∨
       (twofa_authentication ⟨200, some "at", none⟩ cookieOnlyClient).2.2 =
         .error (.runtimeError "No verification token found in response"))) ∧
    (truthy (⟨200, some "at", none⟩ : VerifyResponse).auth = true →
     truthy (⟨200, some "at", none⟩ : VerifyResponse).verified = true →
      twofa_authentication ⟨200, some "at", none⟩ cookieOnlyClient =
        ([Event.request .verifyEndpoint (headersOf cookieOnlyClient)],
         { cookieOnlyClient with
             token_auth := (⟨200, some "at", none⟩ : VerifyResponse).auth,
             token_verify := (⟨200, some "at", none⟩ : VerifyResponse).verified },
         .ok ((⟨200, some "at", none⟩ : VerifyResponse).auth.getD "",
              (⟨200, some "at", none⟩ : VerifyResponse).verified.getD ""))) :=
  ⟨by decide, by decide,
   (c5_two_factor_tokens_all_or_nothing cookieOnlyClient (by decide)
      ⟨200, some "at", none⟩ (by decide)).1,
   (c5_two_factor_tokens_all_or_nothing cookieOnlyClient (by decide)
      ⟨200, some "at", none⟩ (by decide)).2⟩

/-- C6 counterexample: contrary to the claim, a cookie-endpoint response
that carries cookies but none named session-cookie does not make the
cookie fetch fail: `_fetch_session_cookie` raises only when the response
has no cookies at all, and here it returns successfully, storing `None`
as the session cookie. -/
theorem c6_fetch_without_named_cookie_not_an_error :
    fetch_session_cookie [("other", "x")] newClient =
      ([Event.request .cookieEndpoint []], newClient, .ok none) := by
  rfl

/-- C6 (amended): the cookie fetch fails with `MissingSessionCookie` iff
the cookie-endpoint response carries no cookies at all.  When the
response carries cookies but none named session-cookie, the fetch itself
succeeds and stores `None`; the surrounding `authenticate` operation then
fails with `MissingSessionCookie` from header construction, and the
login endpoint is never called within the operation — its trace holds
exactly the one cookie-endpoint request. -/
theorem c6_missing_cookie_fails_before_login
    (cookieResp : List (String × String)) (hne : cookieResp ≠ [])
    (hlook : dictGet "session-cookie" cookieResp = none)
    (loginResps : Nat → AuthResponse) (st : ClientState)
    (hc : truthy st.session_cookie = false) (fuel : Nat) :
    (∀ (cookies : List (String × String)) (st2 : ClientState),
       (fetch_session_cookie cookies st2).2.2 =
          .error (.missingSessionCookie "No cookies found in response")
        ↔ cookies = []) ∧
    authenticate cookieResp loginResps (fuel + 1) st =
      ([Event.request .cookieEndpoint []], { st with session_cookie := none },
       .err (.missingSessionCookie "Session cookie is missing")) := by
  constructor
  · intro cookies st2
    cases cookies <;> simp [fetch_session_cookie]
  · have hempty : cookieResp.isEmpty = false := by
      cases cookieResp with
      | nil => exact absurd rfl hne
      | cons x xs => rfl
    have hfetch : fetch_session_cookie cookieResp st =
        ([Event.request .cookieEndpoint []],
         { st with session_cookie := none }, .ok none) := by
      simp [fetch_session_cookie, hempty, hlook]
    have hcall : (fun n st2 => perform_authentication (loginResps n) st2)
        (initLoop { st with session_cookie := none }).callIdx
        (initLoop { st with session_cookie := none }).client =
        ([], { st with session_cookie := none },
         .error (.missingSessionCookie "Session cookie is missing")) := by
      simp [initLoop, perform_authentication, craft_headers, truthy]
    have hloop := retry_raise_step
      (fun n st2 => perform_authentication (loginResps n) st2)
      (fun _ st2 => authenticate cookieResp loginResps fuel st2)
      fuel (initLoop { st with session_cookie := none })
      (show (0:Nat) < MAX_RETRIES by decide) _ _ _ hcall
      (by intro status msg h; cases h)
    simp only [initLoop] at hloop
    simp [authenticate, hc, hfetch, initLoop, hloop]

/-- Witness for C6: the theorem applied to a cookie response carrying
only an unrelated cookie, a login oracle that would accept, the fresh
client, and fuel 1. -/
theorem c6_missing_cookie_fails_before_login_witness :
    ([("other", "x")] : List (String × String)) ≠ [] ∧
    dictGet "session-cookie" [("other", "x")] = none ∧
    truthy newClient.session_cookie = false ∧
    ((∀ (cookies : List (String × String)) (st2 : ClientState),
       (fetch_session_cookie cookies st2).2.2 =
          .error (.missingSessionCookie "No cookies found in response")
        ↔ cookies = []) ∧
     authenticate [("other", "x")]
        (fun _ => ⟨200, none, none, some "a"⟩) (0 + 1) newClient =
      ([Event.request .cookieEndpoint []],
       { newClient with session_cookie := none },
       .err (.missingSessionCookie "Session cookie is missing"))) :=
  ⟨by decide, by decide, by decide,
   c6_missing_cookie_fails_before_login [("other", "x")] (by decide)
     (by decide) (fun _ => ⟨200, none, none, some "a"⟩) newClient
     (by decide) 0⟩

/-- C7 counterexample: contrary to the claim, the constructed headers
contain no User-Agent entry at all: for a client with a full token
triple, `_craft_headers` returns exactly Cookie, Content-Type,
Authorization and Auth-Verification. -/
theorem c7_no_user_agent_header :
    craft_headers savedClient =
      .ok [("Cookie", "session-cookie=c"), ("Content-Type", "application/json"),
           ("Authorization", "Bearer a"), ("Auth-Verification", "v")] ∧
    List.lookup "User-Agent"
      [("Cookie", "session-cookie=c"), ("Content-Type", "application/json"),
       ("Authorization", "Bearer a"), ("Auth-Verification", "v")] = none := by
  exact ⟨rfl, rfl⟩

/-- C7 (amended): header construction fails fast with
`MissingSessionCookie` when the session cookie is falsy; otherwise the
headers always include `Cookie: session-cookie=<value>` and
`Content-Type: application/json` — but no User-Agent entry — and include
`Authorization: Bearer <auth_token>` and `Auth-Verification:
<verify_token>` exactly when those tokens are present and non-empty;
consequently no request carrying auth tokens is ever issued without a
non-absent session cookie. -/
theorem c7_header_invariant (st : ClientState) :
    (truthy st.session_cookie = false →
      craft_headers st =
        .error (.missingSessionCookie "Session cookie is missing")) ∧
    (∀ c, st.session_cookie = some c → c ≠ "" →
      craft_headers st = .ok (headersOf st) ∧
      List.lookup "Cookie" (headersOf st) = some ("session-cookie=" ++ c) ∧
      List.lookup "Content-Type" (headersOf st) = some "application/json" ∧
      List.lookup "User-Agent" (headersOf st) = none ∧
      (∀ a, st.token_auth = some a → a ≠ "" →
        List.lookup "Authorization" (headersOf st) = some ("Bearer " ++ a)) ∧
      (truthy st.token_auth = false →
        List.lookup "Authorization" (headersOf st) = none) ∧
      (∀ v, st.token_verify = some v → v ≠ "" →
        List.lookup "Auth-Verification" (headersOf st) = some v) ∧
      (truthy st.token_verify = false →
        List.lookup "Auth-Verification" (headersOf st) = none)) := by
  constructor
  · intro h
    simp [craft_headers, h]
  · intro c hcook hcne
    have hc : truthy st.session_cookie = true := by simp [hcook, truthy, hcne]
    refine ⟨by simp [craft_headers, hc], ?_, ?_, ?_, ?_, ?_, ?_, ?_⟩
    · by_cases hA : truthy st.token_auth <;>
        by_cases hV : truthy st.token_verify <;>
        simp [headersOf, hA, hV, hcook, List.lookup]
    · by_cases hA : truthy st.token_auth <;>
        by_cases hV : truthy st.token_verify <;>
        simp [headersOf, hA, hV, hcook, List.lookup]
    · by_cases hA : truthy st.token_auth <;>
        by_cases hV : truthy st.token_verify <;>
        simp [headersOf, hA, hV, hcook, List.lookup]
    · intro a ha hane
      have hA2 : truthy (some a) = true := by simp [truthy, hane]
      by_cases hV : truthy st.token_verify <;>
        simp [headersOf, hA2, hV, hcook, ha, List.lookup]
    · intro hA
      by_cases hV : truthy st.token_verify <;>
        simp [headersOf, hA, hV, hcook, List.lookup]
    · intro v hv hvne
      have hV2 : truthy (some v) = true := by simp [truthy, hvne]
      by_cases hA : truthy st.token_auth <;>
        simp [headersOf, hA, hV2, hcook, List.lookup, hv]
    · intro hV
      by_cases hA : truthy st.token_auth <;>
        simp [headersOf, hA, hV, hcook, List.lookup]

/-- Witness for C7: the invariant theorem applied to the client with the
saved triple, with every inner hypothesis discharged concretely. -/
theorem c7_header_invariant_witness :
    craft_headers savedClient = .ok (headersOf savedClient) ∧
    List.lookup "Cookie" (headersOf savedClient) =
      some ("session-cookie=" ++ "c") ∧
    List.lookup "Content-Type" (headersOf savedClient) =
      some "application/json" ∧
    List.lookup "User-Agent" (headersOf savedClient) = none ∧
    List.lookup "Authorization" (headersOf savedClient) =
      some ("Bearer " ++ "a") ∧
    List.lookup "Auth-Verification" (headersOf savedClient) = some "v" :=
  have h := (c7_header_invariant savedClient).2 "c" rfl (by decide)
  ⟨h.1, h.2.1, h.2.2.1, h.2.2.2.1, h.2.2.2.2.1 "a" rfl (by decide),
   h.2.2.2.2.2.2.1 "v" rfl (by decide)⟩

/-- C8, confirmed: `get_account_balance` returns exactly the sum of
`charge.accrued` over the entries whose `checked` flag is true, and on
the entries `[{accrued: 100, checked: true}, {accrued: 50, checked:
false}, {accrued: 25, checked: true}]` the result is 125. -/
theorem c8_balance_sums_checked_accrued :
    get_account_balance
      [⟨100, some true⟩, ⟨50, some false⟩, ⟨25, some true⟩] = 125 ∧
    ∀ data : List BalanceEntry,
      get_account_balance data =
        ((data.filter (fun item => item.checked.getD false)).map
          (fun item => item.accrued)).sum := by
  constructor
  · decide
  · intro data
    unfold get_account_balance
    rw [← List.foldl_map (fun item : BalanceEntry => item.accrued)
          (fun acc x => acc + x), foldl_add_eq_sum]
    simp

/-- C9, confirmed: a client constructed from a saved cookie/auth/verify
triple that immediately runs the accounts operation issues, as its very
first event, the accounts request whose headers carry exactly that
session cookie, that Bearer auth token and that verification token — so
neither the cookie-issuing endpoint nor the login endpoint is called
first, whatever the server then responds. -/
theorem c9_saved_tokens_roundtrip
    (c a v : String) (hc : c ≠ "") (ha : a ≠ "") (hv : v ≠ "")
    (responses : Nat → Nat × Nat)
    (auth : Nat → ClientState → List Event × ClientState × StepResult Unit)
    (fuel : Nat) :
    ∃ t, (retry_api_call (perform_get_accounts responses) auth (fuel + 1)
        (initLoop (initClient (some c) (some a) (some v)))).1 =
      Event.request .accountsEndpoint
        [("Cookie", "session-cookie=" ++ c),
         ("Content-Type", "application/json"),
         ("Authorization", "Bearer " ++ a),
         ("Auth-Verification", v)] :: t := by
  have hct : truthy (some c) = true := by simp [truthy, hc]
  have hat : truthy (some a) = true := by simp [truthy, ha]
  have hvt : truthy (some v) = true := by simp [truthy, hv]
  obtain ⟨t, ht⟩ := retry_first_events (perform_get_accounts responses) auth
    fuel (initLoop (initClient (some c) (some a) (some v)))
    (show (0:Nat) < MAX_RETRIES by decide)
  refine ⟨t, ?_⟩
  rw [ht]
  simp [initLoop, initClient, perform_get_accounts, craft_headers, headersOf,
    hct, hat, hvt]

/-- Witness for C9: the round-trip theorem applied to the concrete triple
("c", "a", "v"), a constant 200 response stream, no re-authentication
behaviour, and fuel 1. -/
theorem c9_saved_tokens_roundtrip_witness :
    ∃ t, (retry_api_call (perform_get_accounts (fun _ => (200, 0))) noReauth
        (0 + 1) (initLoop (initClient (some "c") (some "a") (some "v")))).1 =
      Event.request .accountsEndpoint
        [("Cookie", "session-cookie=" ++ "c"),
         ("Content-Type", "application/json"),
         ("Authorization", "Bearer " ++ "a"),
         ("Auth-Verification", "v")] :: t :=
  c9_saved_tokens_roundtrip "c" "a" "v" (by decide) (by decide) (by decide)
    (fun _ => (200, 0)) noReauth 0

/-- C10, confirmed under spec modelling (the proxy-handling `__init__`
and `_get_session` code is not in the source tree): transport resolution
happens once at construction; with no proxy configured the connection is
direct; with an http or https proxy every request passes the proxy URL;
with a socks4/socks5/socks5h proxy a dedicated SOCKS connector is built
at construction when the runtime has SOCKS capability, and construction
fails loudly with `socksSupportUnavailable` — never a silent direct
fallback — when it does not. -/
theorem c10_proxy_resolution (url : String) (socksAvailable : Bool) :
    resolveTransport none socksAvailable = .ok .direct ∧
    (urlScheme url = "http" ∨ urlScheme url = "https" →
      resolveTransport (some url) socksAvailable = .ok (.perRequestProxy url)) ∧
    (urlScheme url = "socks4" ∨ urlScheme url = "socks5" ∨
        urlScheme url = "socks5h" →
      resolveTransport (some url) true = .ok (.socksConnector url) ∧
      resolveTransport (some url) false = .error .socksSupportUnavailable) := by
  refine ⟨rfl, ?_, ?_⟩
  · intro h
    have hns : ¬ (urlScheme url = "socks4" ∨ urlScheme url = "socks5" ∨
        urlScheme url = "socks5h") := by
      rcases h with h | h <;> simp [h]
    simp [resolveTransport, hns]
  · intro h
    exact ⟨by simp [resolveTransport, h], by simp [resolveTransport, h]⟩

/-- Witness for C10: the resolution theorem applied to the SOCKS url
"socks5://u:p@host:1080" and, through the http conjunct, to
"http://host:3128". -/
theorem c10_proxy_resolution_witness :
    resolveTransport none true = .ok .direct ∧
    resolveTransport (some "http://host:3128") true =
      .ok (.perRequestProxy "http://host:3128") ∧
    resolveTransport (some "socks5://u:p@host:1080") true =
      .ok (.socksConnector "socks5://u:p@host:1080") ∧
    resolveTransport (some "socks5://u:p@host:1080") false =
      .error .socksSupportUnavailable :=
  ⟨(c10_proxy_resolution "http://host:3128" true).1,
   (c10_proxy_resolution "http://host:3128" true).2.1 (by decide),
   ((c10_proxy_resolution "socks5://u:p@host:1080" true).2.2 (by decide)).1,
   ((c10_proxy_resolution "socks5://u:p@host:1080" true).2.2 (by decide)).2⟩
